import Mathlib

/-!
Verification of the `secure-data-proxy` edge function: an authenticated,
role-aware read-only proxy that fetches rows from a backing store and
applies masking, metadata sanitization and field-level encryption before
returning JSON to the caller.

The handler and its masking utilities are embedded shallowly below, each
definition translated from the corresponding source function.  The
encryption module lives outside the proxied source tree and is modelled
from the specification's contract for it.
-/

namespace SecureDataProxy

/-- An encrypted envelope: algorithm tag, initialization vector,
authentication tag and ciphertext, all transport-encoded text. -/
structure EncryptedPayload where
  algorithm : String
  iv : String
  tag : String
  data : String
deriving DecidableEq, Repr

/-- Result of an encryption call: either the sentinel "no data" marker
(for empty input) or a full envelope. -/
inductive EncResult where
  | noData : EncResult
  | envelope : EncryptedPayload → EncResult
deriving DecidableEq, Repr

/-- Modelled from the spec: the Authenticated Encryption Module's
`encryptData` (file `_shared/encryption.ts`, not present in the proxied
source tree).  Per the spec it produces a self-contained envelope
(algorithm tag, fresh 96-bit IV, 128-bit auth tag, transport-encoded
ciphertext) and returns a sentinel "no data" marker for empty input.
The random IV and the AES-256-GCM ciphertext are abstracted as opaque
placeholder strings; the ciphertext field keeps the plaintext injectively
encoded so that distinct plaintexts give distinct envelopes. -/
def encryptData (plaintext : String) : EncResult :=
  if plaintext = "" then EncResult.noData
  else EncResult.envelope
    { algorithm := "AES-256-GCM"
      iv := "random-96-bit-iv"
      tag := "128-bit-auth-tag"
      data := "b64:" ++ plaintext }

-- ==========================================
-- MASKING UTILITIES
-- ==========================================

/-- `"*"` repeated `n` times. -/
def asterisks (n : Nat) : String :=
  String.mk (List.replicate n '*')

/-- Mask phone number (source `maskPhone`).  A JS falsy phone (null or
empty string) yields the fixed mask, as does any phone of length ≤ 4;
otherwise all but the last four characters are replaced by `*`. -/
def maskPhone (phone : Option String) : String :=
  match phone with
  | none => "****"
  | some s =>
    if s = "" then "****"
    else if s.length ≤ 4 then "****"
    else asterisks (s.length - 4) ++ s.drop (s.length - 4)

/-- Mask UUID to show only the first 8 characters (source `maskUuid`). -/
def maskUuid (uuid : Option String) : String :=
  match uuid with
  | none => "********"
  | some s =>
    if s = "" then "********"
    else s.take 8 ++ "..."

/-- Mask system prompt (source `maskSystemPrompt`): never exposed,
replaced by a constant placeholder. -/
def maskSystemPrompt (prompt : Option String) : Option String :=
  match prompt with
  | none => none
  | some s => if s = "" then none else some "[System prompt configured]"

/-- Generate proxied recording URL (source `proxyRecordingUrl`): the
real storage URL is replaced by an opaque token bound to the call id. -/
def proxyRecordingUrl (url : Option String) (callId : String) : Option String :=
  match url with
  | none => none
  | some u => if u = "" then none else some ("proxy:recording:" ++ callId)

-- ==========================================
-- METADATA VALUES AND SANITIZER
-- ==========================================

/-- A stored JSON metadata value.  Compound values (objects/arrays) are
abstracted as `obj r` where `r` is their `JSON.stringify` serialization. -/
inductive MVal where
  | null : MVal
  | bool : Bool → MVal
  | num : Int → MVal
  | str : String → MVal
  | obj : String → MVal
deriving DecidableEq, Repr

/-- JavaScript truthiness of a JSON value (`NaN` is not modelled). -/
def jsTruthy : MVal → Bool
  | MVal.null => false
  | MVal.bool b => b
  | MVal.num n => n ≠ 0
  | MVal.str s => s ≠ ""
  | MVal.obj _ => true

/-- `JSON.stringify` of a metadata value. -/
def mvalStringify : MVal → String
  | MVal.null => "null"
  | MVal.bool true => "true"
  | MVal.bool false => "false"
  | MVal.num n => toString n
  | MVal.str s => "\"" ++ s ++ "\""
  | MVal.obj r => r

/-- The string handed to the encryption module for `extracted_data`:
kept as-is when already a string, otherwise serialized. -/
def extractedStr : MVal → String
  | MVal.str s => s
  | v => mvalStringify v

/-- A value of a sanitized metadata object: either a verbatim copy of a
stored value or an encryption result. -/
inductive SVal where
  | plain : MVal → SVal
  | enc : EncResult → SVal
deriving DecidableEq, Repr

/-- JS property read on a JSON object (first binding wins). -/
def lookupKey (m : List (String × MVal)) (k : String) : Option MVal :=
  (m.find? (fun p => p.1 = k)).map (fun p => p.2)

/-- One sanitizer step for a key kept only when its value is truthy
(`if (metadata.k) sanitized.k = metadata.k`). -/
def keepTruthy (m : List (String × MVal)) (k : String) : List (String × SVal) :=
  match lookupKey m k with
  | some v => if jsTruthy v then [(k, SVal.plain v)] else []
  | none => []

/-- One sanitizer step for a key kept whenever it is defined
(`if (metadata.k !== undefined) sanitized.k = metadata.k`). -/
def keepDefined (m : List (String × MVal)) (k : String) : List (String × SVal) :=
  match lookupKey m k with
  | some v => [(k, SVal.plain v)]
  | none => []

/-- The sanitizer step for `extracted_data`: when truthy, serialized if
needed and replaced by its encryption result. -/
def keepExtracted (m : List (String × MVal)) : List (String × SVal) :=
  match lookupKey m "extracted_data" with
  | some v =>
    if jsTruthy v then [("extracted_data", SVal.enc (encryptData (extractedStr v)))] else []
  | none => []

/-- Sanitize metadata (source `sanitizeMetadata`): `null` stays `null`;
otherwise only the allow-listed keys survive, in the source's insertion
order, and `extracted_data` is replaced by its encryption result. -/
def sanitizeMetadata (metadata : Option (List (String × MVal))) :
    Option (List (String × SVal)) :=
  match metadata with
  | none => none
  | some m =>
    some (keepTruthy m "source" ++ keepDefined m "is_retry" ++
      keepTruthy m "lead_name" ++ keepTruthy m "campaign_id" ++
      keepTruthy m "aitel_status" ++ keepTruthy m "error_message" ++
      keepDefined m "retry_attempt" ++ keepDefined m "answered_by_voicemail" ++
      keepExtracted m)

-- ==========================================
-- STORED ROWS (backing-store schema, as selected by the handler)
-- ==========================================

/-- A stored `demo_calls` row, with the columns the handler selects. -/
structure DemoCall where
  id : String
  task_id : Option String
  agent_id : Option String
  engineer_id : Option String
  phone_number : Option String
  status : Option String
  duration_seconds : Option Int
  started_at : Option String
  ended_at : Option String
  created_at : String
  updated_at : Option String
  external_call_id : Option String
  recording_url : Option String
  uploaded_audio_url : Option String
  transcript : Option String
deriving DecidableEq, Repr

/-- A stored `calls` row, with the columns the handler selects. -/
structure CallRow where
  id : String
  agent_id : Option String
  client_id : Option String
  lead_id : Option String
  status : Option String
  connected : Option Bool
  duration_seconds : Option Int
  started_at : Option String
  ended_at : Option String
  created_at : String
  sentiment : Option String
  summary : Option String
  transcript : Option String
  recording_url : Option String
  external_call_id : Option String
  metadata : Option (List (String × MVal))
deriving DecidableEq, Repr

/-- The embedded `aitel_agents(agent_name, external_agent_id)` join
row fetched with a task. -/
structure AgentJoin where
  agent_name : Option String
  external_agent_id : Option String
deriving DecidableEq, Repr

/-- A stored `tasks` row with its embedded agent join. -/
structure TaskRow where
  id : String
  title : Option String
  selected_demo_call_id : Option String
  assigned_to : Option String
  status : Option String
  created_at : String
  aitel_agents : Option AgentJoin
deriving DecidableEq, Repr

/-- The `tasks` projection `(id, title, selected_demo_call_id,
assigned_to)` fetched by the demo-calls handler for joining. -/
structure TaskJoin where
  id : String
  title : Option String
  selected_demo_call_id : Option String
  assigned_to : Option String
deriving DecidableEq, Repr

/-- Projection of a `TaskRow` to the demo-calls join shape. -/
def toTaskJoin (t : TaskRow) : TaskJoin :=
  { id := t.id
    title := t.title
    selected_demo_call_id := t.selected_demo_call_id
    assigned_to := t.assigned_to }

/-- The `aitel_agents(id, agent_name)` projection fetched by the
demo-calls handler for joining. -/
structure AgentRef where
  id : String
  agent_name : Option String
deriving DecidableEq, Repr

-- ==========================================
-- RESPONSE ROWS (after masking/encryption)
-- ==========================================

/-- A demo-call row as returned by `action=demo_calls`. -/
structure MaskedDemoCall where
  id : String
  task_id : Option String
  agent_id : Option String
  engineer_id : Option String
  phone_number : String
  status : Option String
  duration_seconds : Option Int
  started_at : Option String
  ended_at : Option String
  created_at : String
  updated_at : Option String
  external_call_id : String
  recording_url : Option String
  uploaded_audio_url : Option String
  transcript : Option EncResult
  tasks : Option TaskJoin
  aitel_agents : Option AgentRef
deriving DecidableEq, Repr

/-- A demo-call row as returned by `action=admin_demo_calls` (no
joined task/agent fields). -/
structure MaskedAdminDemoCall where
  id : String
  task_id : Option String
  agent_id : Option String
  engineer_id : Option String
  phone_number : String
  status : Option String
  duration_seconds : Option Int
  started_at : Option String
  ended_at : Option String
  created_at : String
  updated_at : Option String
  external_call_id : String
  recording_url : Option String
  uploaded_audio_url : Option String
  transcript : Option EncResult
deriving DecidableEq, Repr

/-- A call row as returned by `action=calls` and `action=active_calls`
(`agent` is `some "Agent"` for the former, absent for the latter). -/
structure MaskedCall where
  id : String
  agent_id : Option String
  client_id : Option String
  lead_id : String
  status : Option String
  connected : Option Bool
  duration_seconds : Option Int
  started_at : Option String
  ended_at : Option String
  created_at : String
  sentiment : Option String
  summary : Option EncResult
  transcript : Option EncResult
  recording_url : Option String
  external_call_id : Option String
  metadata : Option (List (String × SVal))
  agent : Option String
deriving DecidableEq, Repr

/-- The agent join of a task row after masking. -/
structure MaskedTaskAgent where
  agent_name : Option String
  external_agent_id : String
  current_system_prompt : Option String
  original_system_prompt : Option String
deriving DecidableEq, Repr

/-- A task row as returned by `action=tasks`. -/
structure MaskedTask where
  id : String
  title : Option String
  selected_demo_call_id : Option String
  assigned_to : Option String
  status : Option String
  created_at : String
  aitel_agents : Option MaskedTaskAgent
deriving DecidableEq, Repr

-- ==========================================
-- REQUEST, ENVIRONMENT, RESPONSE
-- ==========================================

/-- An inbound HTTP request, reduced to the pieces the handler reads:
the method, the `Authorization` header, and the query parameters. -/
structure Request where
  method : String
  authHeader : Option String
  action : Option String
  engineer_id : Option String
  client_id : Option String
  start_date : Option String
  status : Option String
  assigned_to : Option String
deriving DecidableEq, Repr

/-- The external world as seen by one request: the identity service's
verdict on the bearer token and the backing store's reply for each
table (rows in `created_at`-descending order, or a fetch error). -/
structure Env where
  authUser : Option String
  user_roles : List (String × String)
  demo_calls : Except String (List DemoCall)
  calls : Except String (List CallRow)
  tasks : Except String (List TaskRow)
  aitel_agents : Except String (List AgentRef)
  todayIso : String
deriving Repr

/-- A response body, one shape per handler outcome. -/
inductive Body where
  | empty : Body
  | error : String → Body
  | demoCallList : List MaskedDemoCall → Body
  | adminDemoCallList : List MaskedAdminDemoCall → Body
  | callList : List MaskedCall → Body
  | statsBody : Nat → Nat → Nat → Nat → Nat → Int → Int → Body
  | taskList : List MaskedTask → Body
deriving DecidableEq, Repr

/-- An HTTP response: numeric code and JSON body. -/
structure Response where
  status : Nat
  body : Body
deriving DecidableEq, Repr

/-- The per-request role lookup (`user_roles` single row by user id;
a missing row leaves the role undefined). -/
def roleOf (roles : List (String × String)) (uid : String) : Option String :=
  (roles.find? (fun p => p.1 = uid)).map (fun p => p.2)

/-- Truthiness of a query parameter (`searchParams.get` gives `null`
for a missing parameter, and empty strings are falsy). -/
def paramTruthy : Option String → Bool
  | none => false
  | some s => s ≠ ""

/-- The header check `authHeader.startsWith("Bearer ")`, written over
character lists so it computes by reduction. -/
def strStartsWith (s p : String) : Bool :=
  s.data.take p.data.length == p.data

/-- The handler's conditional encryption of a nullable text column
(`x ? await encryptData(x) : null`). -/
def encryptOpt : Option String → Option EncResult
  | none => none
  | some s => if s = "" then none else some (encryptData s)

-- ==========================================
-- PER-ACTION HANDLERS
-- ==========================================

/-- Per-row transform of the demo-calls handler: mask phone and external
id, encrypt the transcript, proxy both media URLs, attach the joined
task and agent rows found by foreign id. -/
def maskDemoCall (tasksJ : List TaskJoin) (agentsJ : List AgentRef)
    (c : DemoCall) : MaskedDemoCall :=
  { id := c.id
    task_id := c.task_id
    agent_id := c.agent_id
    engineer_id := c.engineer_id
    phone_number := maskPhone c.phone_number
    status := c.status
    duration_seconds := c.duration_seconds
    started_at := c.started_at
    ended_at := c.ended_at
    created_at := c.created_at
    updated_at := c.updated_at
    external_call_id := maskUuid c.external_call_id
    recording_url := proxyRecordingUrl c.recording_url c.id
    uploaded_audio_url := proxyRecordingUrl c.uploaded_audio_url c.id
    transcript := encryptOpt c.transcript
    tasks := match c.task_id with
      | some tid => tasksJ.find? (fun t => t.id = tid)
      | none => none
    aitel_agents := match c.agent_id with
      | some aid => agentsJ.find? (fun a => a.id = aid)
      | none => none }

/-- The demo-calls row scope: the equality filter on the `engineer_id`
request parameter is added only when the caller's role is `engineer`
and the parameter is truthy; otherwise all rows pass. -/
def demoScope (userRole : Option String) (engineerParam : Option String)
    (rows : List DemoCall) : List DemoCall :=
  if userRole = some "engineer" ∧ paramTruthy engineerParam then
    rows.filter (fun r => r.engineer_id = engineerParam)
  else rows

/-- `action=demo_calls`: fetch demo calls (engineer role plus a truthy
`engineer_id` parameter adds an equality filter on that parameter),
bulk-fetch task and agent joins, and mask every row. -/
def demoCallsAction (userRole : Option String) (engineerParam : Option String)
    (env : Env) : Response × List String :=
  match env.demo_calls with
  | Except.error msg =>
    ({ status := 500, body := Body.error msg }, ["demo_calls"])
  | Except.ok rows =>
    let rows := demoScope userRole engineerParam rows
    let taskIds := rows.map (fun c => c.task_id)
    let tasksJ := match env.tasks with
      | Except.error _ => []
      | Except.ok ts =>
        (ts.filter (fun t => taskIds.contains (some t.id))).map toTaskJoin
    let agentIds := rows.map (fun c => c.agent_id)
    let agentsJ := match env.aitel_agents with
      | Except.error _ => []
      | Except.ok as_ => as_.filter (fun a => agentIds.contains (some a.id))
    ({ status := 200
       body := Body.demoCallList (rows.map (maskDemoCall tasksJ agentsJ)) },
     ["demo_calls", "tasks", "aitel_agents"])

/-- Per-row transform of the admin demo-calls handler. -/
def maskAdminDemoCall (c : DemoCall) : MaskedAdminDemoCall :=
  { id := c.id
    task_id := c.task_id
    agent_id := c.agent_id
    engineer_id := c.engineer_id
    phone_number := maskPhone c.phone_number
    status := c.status
    duration_seconds := c.duration_seconds
    started_at := c.started_at
    ended_at := c.ended_at
    created_at := c.created_at
    updated_at := c.updated_at
    external_call_id := maskUuid c.external_call_id
    recording_url := proxyRecordingUrl c.recording_url c.id
    uploaded_audio_url := proxyRecordingUrl c.uploaded_audio_url c.id
    transcript := encryptOpt c.transcript }

/-- `action=admin_demo_calls`: admin only; fetch all demo calls and
mask every row. -/
def adminDemoCallsAction (userRole : Option String) (env : Env) :
    Response × List String :=
  if userRole ≠ some "admin" then
    ({ status := 403, body := Body.error "Forbidden" }, [])
  else
    match env.demo_calls with
    | Except.error msg =>
      ({ status := 500, body := Body.error msg }, ["demo_calls"])
    | Except.ok rows =>
      ({ status := 200
         body := Body.adminDemoCallList (rows.map maskAdminDemoCall) },
       ["demo_calls"])

/-- Per-row transform of the calls handler: mask the lead id, encrypt
transcript and summary, proxy the recording URL, sanitize metadata. -/
def maskCallRow (agentField : Option String) (c : CallRow) : MaskedCall :=
  { id := c.id
    agent_id := c.agent_id
    client_id := c.client_id
    lead_id := maskUuid c.lead_id
    status := c.status
    connected := c.connected
    duration_seconds := c.duration_seconds
    started_at := c.started_at
    ended_at := c.ended_at
    created_at := c.created_at
    sentiment := c.sentiment
    summary := encryptOpt c.summary
    transcript := encryptOpt c.transcript
    recording_url := proxyRecordingUrl c.recording_url c.id
    external_call_id := c.external_call_id
    metadata := sanitizeMetadata c.metadata
    agent := agentField }

/-- The query filters of `action=calls`, applied in source order:
`gte(created_at, start_date)`, `eq(client_id, ...)`, and
`eq(status, ...)` unless the status filter is `"all"`. -/
def applyCallFilters (startDate clientId statusFilter : Option String)
    (rows : List CallRow) : List CallRow :=
  let rows :=
    if paramTruthy startDate then
      rows.filter (fun r => startDate.getD "" ≤ r.created_at)
    else rows
  let rows :=
    if paramTruthy clientId then
      rows.filter (fun r => r.client_id = clientId)
    else rows
  if paramTruthy statusFilter ∧ statusFilter ≠ some "all" then
    rows.filter (fun r => r.status = statusFilter)
  else rows

/-- `action=calls`: any authenticated principal; fetch calls with the
request's filters and mask every row, attaching `agent: {name:"Agent"}`. -/
def callsAction (req : Request) (env : Env) : Response × List String :=
  match env.calls with
  | Except.error msg =>
    ({ status := 500, body := Body.error msg }, ["calls"])
  | Except.ok rows =>
    let rows := applyCallFilters req.start_date req.client_id req.status rows
    ({ status := 200
       body := Body.callList (rows.map (maskCallRow (some "Agent"))) },
     ["calls"])

/-- `action=active_calls`: admin only; fetch calls whose status is
`initiated` or `in_progress` and mask every row. -/
def activeCallsAction (userRole : Option String) (env : Env) :
    Response × List String :=
  if userRole ≠ some "admin" then
    ({ status := 403, body := Body.error "Forbidden" }, [])
  else
    match env.calls with
    | Except.error msg =>
      ({ status := 500, body := Body.error msg }, ["calls"])
    | Except.ok rows =>
      let rows := rows.filter
        (fun r => r.status = some "initiated" ∨ r.status = some "in_progress")
      ({ status := 200
         body := Body.callList (rows.map (maskCallRow none)) },
       ["calls"])

/-- `Math.round (num / den)` for the nonnegative operands produced by
the stats computation (round half up). -/
def jsRound (num den : Int) : Int :=
  (2 * num + den) / (2 * den)

/-- `action=today_stats`: admin only; count today's calls by status and
return only scalar aggregates. -/
def todayStatsAction (userRole : Option String) (env : Env) :
    Response × List String :=
  if userRole ≠ some "admin" then
    ({ status := 403, body := Body.error "Forbidden" }, [])
  else
    match env.calls with
    | Except.error msg =>
      ({ status := 500, body := Body.error msg }, ["calls"])
    | Except.ok rows =>
      let todayCalls := rows.filter (fun r => env.todayIso ≤ r.created_at)
      let total := todayCalls.length
      let completed := (todayCalls.filter (fun c => c.status = some "completed")).length
      let connected := (todayCalls.filter (fun c => c.connected = some true)).length
      let failed := (todayCalls.filter (fun c => c.status = some "failed")).length
      let inProgress := (todayCalls.filter
        (fun c => c.status = some "initiated" ∨ c.status = some "in_progress")).length
      let totalDuration := todayCalls.foldl
        (fun acc c => acc + (c.duration_seconds.getD 0)) (0 : Int)
      ({ status := 200
         body := Body.statsBody total completed connected failed inProgress
           (if total > 0 then jsRound (100 * (connected : Int)) (total : Int) else 0)
           (if total > 0 then jsRound totalDuration (total : Int) else 0) },
       ["calls"])

/-- Per-row transform of the tasks handler: mask the joined agent's
external id and system prompts (the fetched join carries no prompt
columns, so both prompts mask from an absent value). -/
def maskTask (t : TaskRow) : MaskedTask :=
  { id := t.id
    title := t.title
    selected_demo_call_id := t.selected_demo_call_id
    assigned_to := t.assigned_to
    status := t.status
    created_at := t.created_at
    aitel_agents := t.aitel_agents.map (fun a =>
      { agent_name := a.agent_name
        external_agent_id := maskUuid a.external_agent_id
        current_system_prompt := maskSystemPrompt none
        original_system_prompt := maskSystemPrompt none }) }

/-- The query filters of `action=tasks`: `eq(assigned_to, ...)` and
`eq(status, ...)`, each applied only for a truthy parameter. -/
def applyTaskFilters (assignedTo statusParam : Option String)
    (rows : List TaskRow) : List TaskRow :=
  let rows :=
    if paramTruthy assignedTo then
      rows.filter (fun r => r.assigned_to = assignedTo)
    else rows
  if paramTruthy statusParam then
    rows.filter (fun r => r.status = statusParam)
  else rows

/-- `action=tasks`: any authenticated principal; fetch tasks with the
request's filters and mask every row's agent join. -/
def tasksAction (req : Request) (env : Env) : Response × List String :=
  match env.tasks with
  | Except.error msg =>
    ({ status := 500, body := Body.error msg }, ["tasks"])
  | Except.ok rows =>
    let rows := applyTaskFilters req.assigned_to req.status rows
    ({ status := 200, body := Body.taskList (rows.map maskTask) }, ["tasks"])

/-- Closed dispatch on the `action` parameter, in source order; any
other value (or a missing parameter) falls through to 400. -/
def dispatchAction (req : Request) (env : Env) (userRole : Option String) :
    Response × List String :=
  if req.action = some "demo_calls" then
    demoCallsAction userRole req.engineer_id env
  else if req.action = some "admin_demo_calls" then
    adminDemoCallsAction userRole env
  else if req.action = some "calls" then
    callsAction req env
  else if req.action = some "active_calls" then
    activeCallsAction userRole env
  else if req.action = some "today_stats" then
    todayStatsAction userRole env
  else if req.action = some "tasks" then
    tasksAction req env
  else
    ({ status := 400, body := Body.error "Invalid action" }, [])

/-- The full request handler (the `serve` callback): CORS preflight,
bearer-header check, token verification, single role lookup, then
dispatch.  The second component logs every backing-store table the
request fetched, in order. -/
def handle (req : Request) (env : Env) : Response × List String :=
  if req.method = "OPTIONS" then
    ({ status := 200, body := Body.empty }, [])
  else
    match req.authHeader with
    | none => ({ status := 401, body := Body.error "Unauthorized" }, [])
    | some h =>
      if strStartsWith h "Bearer " then
        match env.authUser with
        | none => ({ status := 401, body := Body.error "Invalid token" }, [])
        | some uid =>
          let p := dispatchAction req env (roleOf env.user_roles uid)
          (p.1, "user_roles" :: p.2)
      else
        ({ status := 401, body := Body.error "Unauthorized" }, [])

-- ==========================================
-- PREDICATES ON RESPONSES
-- ==========================================

/-- The supported values of the `action` parameter. -/
def supportedActions : List String :=
  ["demo_calls", "admin_demo_calls", "calls", "active_calls", "today_stats", "tasks"]

/-- A nullable encrypted field is sound when any value it carries was
produced by the encryption module. -/
def optEnvOk (o : Option EncResult) : Prop :=
  ∀ e, o = some e → ∃ s, e = encryptData s

/-- The metadata keys that may appear in a sanitized object. -/
def allowedMetaKeys : List String :=
  ["source", "is_retry", "lead_name", "campaign_id", "aitel_status",
   "error_message", "retry_attempt", "answered_by_voicemail", "extracted_data"]

/-- A sanitized metadata object is sound when every key is allow-listed,
`extracted_data` holds an encryption result, and every other surviving
key holds a verbatim plain value. -/
def metaOk : Option (List (String × SVal)) → Prop
  | none => True
  | some kvs => ∀ kv, kv ∈ kvs → kv.1 ∈ allowedMetaKeys ∧
      (kv.1 = "extracted_data" → ∃ s, kv.2 = SVal.enc (encryptData s)) ∧
      (kv.1 ≠ "extracted_data" → ∃ v, kv.2 = SVal.plain v)

/-- A masked call row is sound when its transcript and summary are
encrypted (or absent) and its metadata is sanitized. -/
def callRowOk (r : MaskedCall) : Prop :=
  optEnvOk r.transcript ∧ optEnvOk r.summary ∧ metaOk r.metadata

/-- No stored transcript, summary or extracted-data plaintext survives
in a response body: every sensitive slot is an encryption result or
absent, and metadata is sanitized. -/
def sensitiveOk : Body → Prop
  | Body.demoCallList rows => ∀ r, r ∈ rows → optEnvOk r.transcript
  | Body.adminDemoCallList rows => ∀ r, r ∈ rows → optEnvOk r.transcript
  | Body.callList rows => ∀ r, r ∈ rows → callRowOk r
  | _ => True

/-- JS property read on a sanitized metadata object. -/
def lookupS (m : List (String × SVal)) (k : String) : Option SVal :=
  (m.find? (fun p => p.1 = k)).map (fun p => p.2)

/-- What the sanitizer keeps for a truthy-gated key. -/
def truthyVal (m : List (String × MVal)) (k : String) : Option SVal :=
  match lookupKey m k with
  | some v => if jsTruthy v then some (SVal.plain v) else none
  | none => none

/-- What the sanitizer keeps for a defined-gated key. -/
def definedVal (m : List (String × MVal)) (k : String) : Option SVal :=
  (lookupKey m k).map SVal.plain

/-- What the sanitizer keeps for `extracted_data`. -/
def extractedVal (m : List (String × MVal)) : Option SVal :=
  match lookupKey m "extracted_data" with
  | some v =>
    if jsTruthy v then some (SVal.enc (encryptData (extractedStr v))) else none
  | none => none

/-- The primary-rows fetch of the dispatched action failed with `msg`
(the auxiliary join fetches of `demo_calls` are not primary: the source
ignores their errors). -/
def primaryFetchError (req : Request) (env : Env) (msg : String) : Prop :=
  (req.action = some "demo_calls" ∧ env.demo_calls = Except.error msg) ∨
  (req.action = some "admin_demo_calls" ∧ env.demo_calls = Except.error msg) ∨
  (req.action = some "calls" ∧ env.calls = Except.error msg) ∨
  (req.action = some "active_calls" ∧ env.calls = Except.error msg) ∨
  (req.action = some "today_stats" ∧ env.calls = Except.error msg) ∨
  (req.action = some "tasks" ∧ env.tasks = Except.error msg)

-- ==========================================
-- CONCRETE FIXTURES
-- ==========================================

/-- A request skeleton: authenticated GET with no query parameters. -/
def baseReq : Request :=
  { method := "GET"
    authHeader := some "Bearer tok"
    action := none
    engineer_id := none
    client_id := none
    start_date := none
    status := none
    assigned_to := none }

/-- An environment skeleton: valid token for user `U1`, empty store. -/
def baseEnv : Env :=
  { authUser := some "U1"
    user_roles := []
    demo_calls := Except.ok []
    calls := Except.ok []
    tasks := Except.ok []
    aitel_agents := Except.ok []
    todayIso := "2026-10-11T00:00:00Z" }

/-- A stored demo call owned by engineer `U2`. -/
def demoRowU2 : DemoCall :=
  { id := "D1"
    task_id := none
    agent_id := none
    engineer_id := some "U2"
    phone_number := some "9876543210"
    status := some "completed"
    duration_seconds := some 60
    started_at := none
    ended_at := none
    created_at := "2026-01-02T00:00:00Z"
    updated_at := none
    external_call_id := some "11112222-3333"
    recording_url := none
    uploaded_audio_url := none
    transcript := some "hello from U2" }

/-- A stored demo call owned by engineer `E1`. -/
def demoRowE1 : DemoCall :=
  { demoRowU2 with id := "D2", engineer_id := some "E1" }

/-- A stored demo call owned by engineer `E2`. -/
def demoRowE2 : DemoCall :=
  { demoRowU2 with id := "D3", engineer_id := some "E2" }

/-- A stored call with non-null transcript, summary, lead id, recording
URL and metadata. -/
def callRowFull : CallRow :=
  { id := "C1"
    agent_id := some "A1"
    client_id := some "CL1"
    lead_id := some "a1b2c3d4e5f6"
    status := some "completed"
    connected := some true
    duration_seconds := some 42
    started_at := none
    ended_at := none
    created_at := "2026-01-03T00:00:00Z"
    sentiment := some "positive"
    summary := some "went well"
    transcript := some "hello"
    recording_url := some "https://storage.example/r.mp3"
    external_call_id := some "x"
    metadata := some [("source", MVal.str "fb"), ("secret_token", MVal.str "xyz"),
      ("lead_name", MVal.str "Jane")] }

/-- A stored call whose transcript is present but empty. -/
def callRowEmptyTranscript : CallRow :=
  { callRowFull with id := "C2", transcript := some "" }

-- ==========================================
-- THEOREMS
-- ==========================================

/-- Claim C7: `maskPhone` is a pure total function: absent input or
input of length at most 4 yields the fixed mask `"****"`, any longer
input of length n yields n-4 asterisks followed by its last 4
characters, and in particular `maskPhone "9876543210" = "******3210"`,
`maskPhone null = "****"`, `maskPhone "12" = "****"`. -/
theorem C7_maskPhone_pure_total :
    maskPhone none = "****" ∧
    (∀ s : String, s.length ≤ 4 → maskPhone (some s) = "****") ∧
    (∀ s : String, 4 < s.length →
      maskPhone (some s) = asterisks (s.length - 4) ++ s.drop (s.length - 4)) ∧
    maskPhone (some "9876543210") = "******3210" ∧
    maskPhone (some "12") = "****" := by
  refine ⟨rfl, ?_, ?_, by decide, by decide⟩
  · intro s h
    by_cases he : s = ""
    · simp [maskPhone, he]
    · simp [maskPhone, he, h]
  · intro s h
    have he : s ≠ "" := by
      intro e
      subst e
      exact absurd h (by decide)
    have h4 : ¬ s.length ≤ 4 := by omega
    simp [maskPhone, he, h4]

/-- Witness for C7: the quantified clauses applied at `"12"` and
`"987654"`. -/
theorem C7_maskPhone_witness :
    maskPhone (some "12") = "****" ∧
    maskPhone (some "987654") = asterisks 2 ++ "987654".drop 2 :=
  ⟨C7_maskPhone_pure_total.2.1 "12" (by decide),
   C7_maskPhone_pure_total.2.2.1 "987654" (by decide)⟩

/-- Claim C4: a non-OPTIONS request without an `Authorization` header
beginning with `Bearer ` is answered 401 `Unauthorized` and performs
zero backing-store fetches (an empty access log). -/
theorem C4_unauthorized_no_fetch :
    ∀ (req : Request) (env : Env),
      req.method ≠ "OPTIONS" →
      (∀ h, req.authHeader = some h → strStartsWith h "Bearer " = false) →
      handle req env = ({ status := 401, body := Body.error "Unauthorized" }, []) := by
  intro req env hm hh
  simp only [handle, if_neg hm]
  cases hab : req.authHeader with
  | none => rfl
  | some h => simp [hh h hab]

/-- Witness for C4: a request with a non-Bearer header. -/
theorem C4_unauthorized_witness :
    handle { baseReq with authHeader := some "Basic xyz", action := some "calls" } baseEnv =
      ({ status := 401, body := Body.error "Unauthorized" }, []) :=
  C4_unauthorized_no_fetch _ _ (by decide)
    (by intro h hh; simp only [baseReq] at hh; cases hh; decide)

/-- Claim C9: an authenticated request whose `action` parameter is
missing or not one of the supported actions gets 400
`Invalid action`: the dispatch table is closed, with no default
handler. -/
theorem C9_invalid_action_400 :
    ∀ (req : Request) (env : Env) (h uid : String),
      req.method ≠ "OPTIONS" →
      req.authHeader = some h → strStartsWith h "Bearer " = true →
      env.authUser = some uid →
      (∀ a, req.action = some a → a ∉ supportedActions) →
      (handle req env).1 = { status := 400, body := Body.error "Invalid action" } := by
  intro req env h uid hm hab hb hu ha
  simp only [handle, if_neg hm, hab, hb, hu]
  cases hact : req.action with
  | none => simp [dispatchAction, hact]
  | some a =>
    have hna := ha a hact
    simp only [supportedActions, List.mem_cons, List.not_mem_nil, or_false, not_or] at hna
    obtain ⟨h1, h2, h3, h4, h5, h6⟩ := hna
    simp [dispatchAction, hact, h1, h2, h3, h4, h5, h6]

/-- Witness for C9: `action=nonexistent` on an authenticated request. -/
theorem C9_invalid_action_witness :
    (handle { baseReq with action := some "nonexistent" } baseEnv).1 =
      { status := 400, body := Body.error "Invalid action" } :=
  C9_invalid_action_400 _ _ "Bearer tok" "U1" (by decide) rfl (by decide) rfl
    (by intro a hha; simp only [baseReq] at hha; cases hha; decide)

/-- Claim C5: for an authenticated principal whose resolved role is not
admin (a missing role record included), `admin_demo_calls`,
`active_calls` and `today_stats` each answer 403 `Forbidden`, and the
access log shows only the role lookup — no data rows are fetched. -/
theorem C5_nonadmin_forbidden :
    ∀ (req : Request) (env : Env) (h uid : String),
      req.method ≠ "OPTIONS" →
      req.authHeader = some h → strStartsWith h "Bearer " = true →
      env.authUser = some uid →
      roleOf env.user_roles uid ≠ some "admin" →
      (req.action = some "admin_demo_calls" ∨ req.action = some "active_calls" ∨
        req.action = some "today_stats") →
      handle req env = ({ status := 403, body := Body.error "Forbidden" }, ["user_roles"]) := by
  intro req env h uid hm hab hb hu hr hact
  simp only [handle, if_neg hm, hab, hb, hu]
  rcases hact with hact | hact | hact
  · simp [dispatchAction, hact, adminDemoCallsAction, hr]
  · simp [dispatchAction, hact, activeCallsAction, hr]
  · simp [dispatchAction, hact, todayStatsAction, hr]

/-- Witness for C5: an engineer calling `active_calls`. -/
theorem C5_nonadmin_witness :
    handle { baseReq with action := some "active_calls" }
        { baseEnv with user_roles := [("U1", "engineer")] } =
      ({ status := 403, body := Body.error "Forbidden" }, ["user_roles"]) :=
  C5_nonadmin_forbidden _ _ "Bearer tok" "U1" (by decide) rfl (by decide) rfl
    (by decide) (Or.inr (Or.inl rfl))

/-- Claim C3 fails as stated: when the `calls` fetch errors with
message `boom`, the handler returns 500 with that message in the body,
not the generic `Internal server error` body. -/
theorem C3_counterexample_cause_in_body :
    (handle { baseReq with action := some "calls" }
        { baseEnv with calls := Except.error "boom" }).1 =
      { status := 500, body := Body.error "boom" } ∧
    Body.error "boom" ≠ Body.error "Internal server error" :=
  ⟨by decide, by decide⟩

/-- Claim C3 (amended): a request whose primary backing-store fetch
fails is answered 500, but the body carries the store's own error
message; the generic `Internal server error` body is produced only by
the top-level catch, not by these branches. -/
theorem C3_amended_store_error_message :
    ∀ (req : Request) (env : Env) (h uid msg : String),
      req.method ≠ "OPTIONS" →
      req.authHeader = some h → strStartsWith h "Bearer " = true →
      env.authUser = some uid →
      ((req.action = some "admin_demo_calls" ∨ req.action = some "active_calls" ∨
        req.action = some "today_stats") → roleOf env.user_roles uid = some "admin") →
      primaryFetchError req env msg →
      (handle req env).1 = { status := 500, body := Body.error msg } := by
  intro req env h uid msg hm hab hb hu hadm hpf
  simp only [handle, if_neg hm, hab, hb, hu]
  rcases hpf with ⟨hact, he⟩ | ⟨hact, he⟩ | ⟨hact, he⟩ | ⟨hact, he⟩ | ⟨hact, he⟩ | ⟨hact, he⟩
  · simp [dispatchAction, hact, demoCallsAction, he]
  · have hr := hadm (Or.inl hact)
    simp [dispatchAction, hact, adminDemoCallsAction, hr, he]
  · simp [dispatchAction, hact, callsAction, he]
  · have hr := hadm (Or.inr (Or.inl hact))
    simp [dispatchAction, hact, activeCallsAction, hr, he]
  · have hr := hadm (Or.inr (Or.inr hact))
    simp [dispatchAction, hact, todayStatsAction, hr, he]
  · simp [dispatchAction, hact, tasksAction, he]

/-- Witness for the amended C3: a failing `tasks` fetch. -/
theorem C3_amended_witness :
    (handle { baseReq with action := some "tasks" }
        { baseEnv with tasks := Except.error "down" }).1 =
      { status := 500, body := Body.error "down" } :=
  C3_amended_store_error_message _ _ "Bearer tok" "U1" "down" (by decide) rfl
    (by decide) rfl
    (by intro hc; rcases hc with hc | hc | hc <;> exact absurd hc (by decide))
    (Or.inr (Or.inr (Or.inr (Or.inr (Or.inr ⟨rfl, rfl⟩)))))

/-- Claim C1 is right but the code is wrong (code bug): the source
comments that engineers can only see their own calls, yet with no
`engineer_id` parameter no filter at all is applied, so engineer `U1`
receives engineer `U2`'s row, whose `engineer_id` differs from the
caller's id. -/
theorem C1_code_bug_no_self_scoping :
    (handle { baseReq with action := some "demo_calls" }
        { baseEnv with user_roles := [("U1", "engineer")],
                       demo_calls := Except.ok [demoRowU2] }).1 =
      { status := 200,
        body := Body.demoCallList [maskDemoCall [] [] demoRowU2] } ∧
    (maskDemoCall [] [] demoRowU2).engineer_id = some "U2" ∧
    (some "U2" : Option String) ≠ some "U1" :=
  ⟨by decide, by decide, by decide⟩

/-- Whatever the handler stores in an encrypted slot came out of the
encryption module. -/
theorem encryptOpt_ok (t : Option String) : optEnvOk (encryptOpt t) := by
  intro e he
  cases t with
  | none => simp [encryptOpt] at he
  | some s =>
    by_cases hs : s = ""
    · simp [encryptOpt, hs] at he
    · refine ⟨s, ?_⟩
      simp only [encryptOpt, hs, if_neg] at he
      simp at he
      exact he.symm

/-- Membership in a truthy-gated sanitizer segment pins the key and
shows the value is a verbatim copy. -/
theorem mem_keepTruthy {m : List (String × MVal)} {k₀ : String}
    {kv : String × SVal} (h : kv ∈ keepTruthy m k₀) :
    kv.1 = k₀ ∧ ∃ v, kv.2 = SVal.plain v := by
  unfold keepTruthy at h
  cases hl : lookupKey m k₀ with
  | none => rw [hl] at h; simp at h
  | some v =>
    rw [hl] at h
    by_cases ht : jsTruthy v
    · simp only [ht, if_true, List.mem_singleton] at h
      subst h
      exact ⟨rfl, v, rfl⟩
    · simp [ht] at h

/-- Membership in a defined-gated sanitizer segment pins the key and
shows the value is a verbatim copy. -/
theorem mem_keepDefined {m : List (String × MVal)} {k₀ : String}
    {kv : String × SVal} (h : kv ∈ keepDefined m k₀) :
    kv.1 = k₀ ∧ ∃ v, kv.2 = SVal.plain v := by
  unfold keepDefined at h
  cases hl : lookupKey m k₀ with
  | none => rw [hl] at h; simp at h
  | some v =>
    rw [hl] at h
    simp only [List.mem_singleton] at h
    subst h
    exact ⟨rfl, v, rfl⟩

/-- Membership in the extracted-data sanitizer segment pins the key and
shows the value is an encryption result. -/
theorem mem_keepExtracted {m : List (String × MVal)} {kv : String × SVal}
    (h : kv ∈ keepExtracted m) :
    kv.1 = "extracted_data" ∧ ∃ s, kv.2 = SVal.enc (encryptData s) := by
  unfold keepExtracted at h
  cases hl : lookupKey m "extracted_data" with
  | none => rw [hl] at h; simp at h
  | some v =>
    rw [hl] at h
    by_cases ht : jsTruthy v
    · simp only [ht, if_true, List.mem_singleton] at h
      subst h
      exact ⟨rfl, extractedStr v, rfl⟩
    · simp [ht] at h

/-- A verbatim-copy segment entry satisfies the sanitized-metadata
soundness conjunction. -/
theorem plain_segment_ok {kv : String × SVal} {k₀ : String}
    (hmem : kv.1 = k₀ ∧ ∃ v, kv.2 = SVal.plain v) (hk : k₀ ∈ allowedMetaKeys)
    (hne : k₀ ≠ "extracted_data") :
    kv.1 ∈ allowedMetaKeys ∧
    (kv.1 = "extracted_data" → ∃ s, kv.2 = SVal.enc (encryptData s)) ∧
    (kv.1 ≠ "extracted_data" → ∃ v, kv.2 = SVal.plain v) := by
  obtain ⟨h1, v, h2⟩ := hmem
  refine ⟨by rw [h1]; exact hk, ?_, fun _ => ⟨v, h2⟩⟩
  intro he
  rw [h1] at he
  exact absurd he hne

/-- Every sanitized metadata object is sound: only allow-listed keys,
`extracted_data` encrypted, everything else verbatim. -/
theorem metaOk_sanitizeMetadata (m : Option (List (String × MVal))) :
    metaOk (sanitizeMetadata m) := by
  cases m with
  | none => trivial
  | some mm =>
    intro kv hkv
    simp only [List.mem_append, or_assoc] at hkv
    rcases hkv with h | h | h | h | h | h | h | h | h
    · exact plain_segment_ok (mem_keepTruthy h) (by decide) (by decide)
    · exact plain_segment_ok (mem_keepDefined h) (by decide) (by decide)
    · exact plain_segment_ok (mem_keepTruthy h) (by decide) (by decide)
    · exact plain_segment_ok (mem_keepTruthy h) (by decide) (by decide)
    · exact plain_segment_ok (mem_keepTruthy h) (by decide) (by decide)
    · exact plain_segment_ok (mem_keepTruthy h) (by decide) (by decide)
    · exact plain_segment_ok (mem_keepDefined h) (by decide) (by decide)
    · exact plain_segment_ok (mem_keepDefined h) (by decide) (by decide)
    · obtain ⟨h1, s, h2⟩ := mem_keepExtracted h
      exact ⟨by rw [h1]; decide, fun _ => ⟨s, h2⟩, fun hne => absurd h1 hne⟩

/-- Every masked call row is sound. -/
theorem callRowOk_maskCallRow (af : Option String) (c : CallRow) :
    callRowOk (maskCallRow af c) :=
  ⟨encryptOpt_ok c.transcript, encryptOpt_ok c.summary,
   metaOk_sanitizeMetadata c.metadata⟩

/-- The demo-calls action never emits raw sensitive plaintext. -/
theorem sensitiveOk_demoCallsAction (role ep : Option String) (env : Env) :
    sensitiveOk (demoCallsAction role ep env).1.body := by
  unfold demoCallsAction
  cases hd : env.demo_calls with
  | error msg => simp only [hd]; trivial
  | ok rows =>
    simp only [hd]
    intro r hr
    obtain ⟨c, _, rfl⟩ := List.mem_map.mp hr
    exact encryptOpt_ok c.transcript

/-- The admin demo-calls action never emits raw sensitive plaintext. -/
theorem sensitiveOk_adminDemoCallsAction (role : Option String) (env : Env) :
    sensitiveOk (adminDemoCallsAction role env).1.body := by
  unfold adminDemoCallsAction
  split
  · trivial
  · cases hd : env.demo_calls with
    | error msg => simp only [hd]; trivial
    | ok rows =>
      simp only [hd]
      intro r hr
      obtain ⟨c, _, rfl⟩ := List.mem_map.mp hr
      exact encryptOpt_ok c.transcript

/-- The calls action never emits raw sensitive plaintext. -/
theorem sensitiveOk_callsAction (req : Request) (env : Env) :
    sensitiveOk (callsAction req env).1.body := by
  unfold callsAction
  cases hd : env.calls with
  | error msg => simp only [hd]; trivial
  | ok rows =>
    simp only [hd]
    intro r hr
    obtain ⟨c, _, rfl⟩ := List.mem_map.mp hr
    exact callRowOk_maskCallRow _ c

/-- The active-calls action never emits raw sensitive plaintext. -/
theorem sensitiveOk_activeCallsAction (role : Option String) (env : Env) :
    sensitiveOk (activeCallsAction role env).1.body := by
  unfold activeCallsAction
  split
  · trivial
  · cases hd : env.calls with
    | error msg => simp only [hd]; trivial
    | ok rows =>
      simp only [hd]
      intro r hr
      obtain ⟨c, _, rfl⟩ := List.mem_map.mp hr
      exact callRowOk_maskCallRow _ c

/-- The stats action returns only scalar aggregates. -/
theorem sensitiveOk_todayStatsAction (role : Option String) (env : Env) :
    sensitiveOk (todayStatsAction role env).1.body := by
  unfold todayStatsAction
  split
  · trivial
  · cases hd : env.calls with
    | error msg => simp only [hd]; trivial
    | ok rows => simp only [hd]; trivial

/-- The tasks action carries no call-record sensitive fields. -/
theorem sensitiveOk_tasksAction (req : Request) (env : Env) :
    sensitiveOk (tasksAction req env).1.body := by
  unfold tasksAction
  cases hd : env.tasks with
  | error msg => simp only [hd]; trivial
  | ok rows => simp only [hd]; trivial

/-- Every response body the handler can produce is sound. -/
theorem sensitiveOk_handle (req : Request) (env : Env) :
    sensitiveOk (handle req env).1.body := by
  unfold handle
  by_cases hm : req.method = "OPTIONS"
  · simp only [if_pos hm]; trivial
  · simp only [if_neg hm]
    cases hab : req.authHeader with
    | none => trivial
    | some h =>
      by_cases hb : strStartsWith h "Bearer "
      · simp only [hb, if_true]
        cases hu : env.authUser with
        | none => trivial
        | some uid =>
          show sensitiveOk (dispatchAction req env (roleOf env.user_roles uid)).1.body
          unfold dispatchAction
          split
          · exact sensitiveOk_demoCallsAction _ _ _
          · split
            · exact sensitiveOk_adminDemoCallsAction _ _
            · split
              · exact sensitiveOk_callsAction _ _
              · split
                · exact sensitiveOk_activeCallsAction _ _
                · split
                  · exact sensitiveOk_todayStatsAction _ _
                  · split
                    · exact sensitiveOk_tasksAction _ _
                    · trivial
      · simp only [hb]
        trivial

/-- Claim C2: in every 200 response, every transcript, summary and
extracted-data value taken from a stored call record appears only as an
encryption-module result or not at all, and sanitized metadata keeps
only allow-listed keys — never the raw stored plaintext (the response
row types carry `EncResult`, not the stored string). -/
theorem C2_no_raw_sensitive_plaintext :
    ∀ (req : Request) (env : Env),
      (handle req env).1.status = 200 →
      sensitiveOk (handle req env).1.body :=
  fun req env _ => sensitiveOk_handle req env

/-- Witness for C2: a successful `calls` response over a stored row
with transcript, summary and metadata. -/
theorem C2_witness :
    (handle { baseReq with action := some "calls" }
        { baseEnv with calls := Except.ok [callRowFull] }).1.status = 200 ∧
    sensitiveOk (handle { baseReq with action := some "calls" }
        { baseEnv with calls := Except.ok [callRowFull] }).1.body :=
  ⟨by decide, C2_no_raw_sensitive_plaintext _ _ (by decide)⟩

/-- Reading a key off concatenated sanitizer segments tries each
segment left to right. -/
theorem lookupS_append (a b : List (String × SVal)) (k : String) :
    lookupS (a ++ b) k = (lookupS a k).or (lookupS b k) := by
  unfold lookupS
  rw [List.find?_append]
  cases a.find? (fun p => p.1 = k) <;> simp

/-- Reading a key off a truthy-gated segment. -/
theorem lookupS_keepTruthy (m : List (String × MVal)) (k₀ k : String) :
    lookupS (keepTruthy m k₀) k = if k = k₀ then truthyVal m k₀ else none := by
  unfold keepTruthy truthyVal
  cases lookupKey m k₀ with
  | none => simp [lookupS]
  | some v =>
    by_cases ht : jsTruthy v
    · simp only [ht, if_true]
      by_cases hk : k = k₀
      · simp [lookupS, List.find?, hk]
      · simp [lookupS, List.find?, Ne.symm hk, hk]
    · simp [ht, lookupS]

/-- Reading a key off a defined-gated segment. -/
theorem lookupS_keepDefined (m : List (String × MVal)) (k₀ k : String) :
    lookupS (keepDefined m k₀) k = if k = k₀ then definedVal m k₀ else none := by
  unfold keepDefined definedVal
  cases lookupKey m k₀ with
  | none => simp [lookupS]
  | some v =>
    by_cases hk : k = k₀
    · simp [lookupS, List.find?, hk]
    · simp [lookupS, List.find?, Ne.symm hk, hk]

/-- Reading a key off the extracted-data segment. -/
theorem lookupS_keepExtracted (m : List (String × MVal)) (k : String) :
    lookupS (keepExtracted m) k =
      if k = "extracted_data" then extractedVal m else none := by
  unfold keepExtracted extractedVal
  cases lookupKey m "extracted_data" with
  | none => simp [lookupS]
  | some v =>
    by_cases ht : jsTruthy v
    · simp only [ht, if_true]
      by_cases hk : k = "extracted_data"
      · simp [lookupS, List.find?, hk]
      · simp [lookupS, List.find?, Ne.symm hk, hk]
    · simp [ht, lookupS]

/-- Claim C6 fails as stated: the allow-listed key `source` is present
in the input (with the empty string as value) yet absent from the
sanitized output, because the sanitizer keeps string-valued keys only
when truthy. -/
theorem C6_counterexample_falsy_dropped :
    sanitizeMetadata (some [("source", MVal.str "")]) = some [] ∧
    lookupKey [("source", MVal.str "")] "source" = some (MVal.str "") :=
  ⟨by decide, by decide⟩

/-- Claim C6 (amended): `sanitizeMetadata` returns null for null input;
otherwise the output holds exactly the allow-listed keys whose input
value passes that key's gate — a truthiness gate for `source`,
`lead_name`, `campaign_id`, `aitel_status` and `error_message`, a mere
presence gate for `is_retry`, `retry_attempt` and
`answered_by_voicemail` — copied verbatim, with `extracted_data` (kept
when truthy) replaced by the encryption of its serialized value, and
every non-allow-listed key absent. -/
theorem C6_amended_sanitizer :
    sanitizeMetadata none = none ∧
    ∀ (m : List (String × MVal)) (k : String), ∃ kvs,
      sanitizeMetadata (some m) = some kvs ∧
      lookupS kvs k =
        (if k = "source" then truthyVal m "source"
        else if k = "is_retry" then definedVal m "is_retry"
        else if k = "lead_name" then truthyVal m "lead_name"
        else if k = "campaign_id" then truthyVal m "campaign_id"
        else if k = "aitel_status" then truthyVal m "aitel_status"
        else if k = "error_message" then truthyVal m "error_message"
        else if k = "retry_attempt" then definedVal m "retry_attempt"
        else if k = "answered_by_voicemail" then definedVal m "answered_by_voicemail"
        else if k = "extracted_data" then extractedVal m
        else none) := by
  refine ⟨rfl, fun m k => ⟨_, rfl, ?_⟩⟩
  simp only [lookupS_append, lookupS_keepTruthy, lookupS_keepDefined,
    lookupS_keepExtracted]
  by_cases h1 : k = "source"
  · simp [h1]
  by_cases h2 : k = "is_retry"
  · simp [h1, h2]
  by_cases h3 : k = "lead_name"
  · simp [h1, h2, h3]
  by_cases h4 : k = "campaign_id"
  · simp [h1, h2, h3, h4]
  by_cases h5 : k = "aitel_status"
  · simp [h1, h2, h3, h4, h5]
  by_cases h6 : k = "error_message"
  · simp [h1, h2, h3, h4, h5, h6]
  by_cases h7 : k = "retry_attempt"
  · simp [h1, h2, h3, h4, h5, h6, h7]
  by_cases h8 : k = "answered_by_voicemail"
  · simp [h1, h2, h3, h4, h5, h6, h7, h8]
  by_cases h9 : k = "extracted_data"
  · simp [h1, h2, h3, h4, h5, h6, h7, h8, h9]
  · simp [h1, h2, h3, h4, h5, h6, h7, h8, h9]

/-- Witness for the amended C6: the spec's own example, with the
non-allow-listed `secret_token` absent from the output. -/
theorem C6_amended_witness :
    sanitizeMetadata (some [("source", MVal.str "fb"), ("secret_token", MVal.str "xyz"),
        ("lead_name", MVal.str "Jane")]) =
      some [("source", SVal.plain (MVal.str "fb")),
        ("lead_name", SVal.plain (MVal.str "Jane"))] ∧
    lookupS [("source", SVal.plain (MVal.str "fb")),
        ("lead_name", SVal.plain (MVal.str "Jane"))] "secret_token" = none := by
  constructor
  · decide
  · obtain ⟨kvs, hk, hl⟩ := C6_amended_sanitizer.2
      [("source", MVal.str "fb"), ("secret_token", MVal.str "xyz"),
        ("lead_name", MVal.str "Jane")] "secret_token"
    have hkvs : kvs = [("source", SVal.plain (MVal.str "fb")),
        ("lead_name", SVal.plain (MVal.str "Jane"))] := by
      have : sanitizeMetadata (some [("source", MVal.str "fb"),
          ("secret_token", MVal.str "xyz"), ("lead_name", MVal.str "Jane")]) =
          some [("source", SVal.plain (MVal.str "fb")),
            ("lead_name", SVal.plain (MVal.str "Jane"))] := by decide
      rw [this] at hk
      exact (Option.some.inj hk).symm
    rw [hkvs] at hl
    rw [hl]
    decide

/-- Claim C8 fails as stated: a stored call whose transcript is
non-null but empty gets `transcript: null` in the response, not an
envelope, because the handler gates encryption on truthiness. -/
theorem C8_counterexample_empty_transcript :
    (handle { baseReq with action := some "calls" }
        { baseEnv with calls := Except.ok [callRowEmptyTranscript] }).1 =
      { status := 200,
        body := Body.callList [maskCallRow (some "Agent") callRowEmptyTranscript] } ∧
    callRowEmptyTranscript.transcript = some "" ∧
    (maskCallRow (some "Agent") callRowEmptyTranscript).transcript = none :=
  ⟨by decide, by decide, by decide⟩

/-- Claim C8 (amended): an authenticated `calls` request returns the
filtered rows mapped through the masking transform, and for every
stored row with non-empty transcript, lead id and recording URL the
transform yields the encryption envelope of the transcript, the first
8 characters of the lead id followed by an ellipsis, and the opaque
`proxy:recording:` token bound to the call id. -/
theorem C8_amended_calls_masking :
    ∀ (req : Request) (env : Env) (h uid : String) (rows : List CallRow),
      req.method ≠ "OPTIONS" →
      req.authHeader = some h → strStartsWith h "Bearer " = true →
      env.authUser = some uid →
      req.action = some "calls" →
      env.calls = Except.ok rows →
      (handle req env).1 =
        { status := 200,
          body := Body.callList ((applyCallFilters req.start_date req.client_id
            req.status rows).map (maskCallRow (some "Agent"))) } ∧
      (∀ (c : CallRow) (t l rurl : String), c.transcript = some t → t ≠ "" →
        c.lead_id = some l → l ≠ "" → c.recording_url = some rurl → rurl ≠ "" →
        (maskCallRow (some "Agent") c).transcript = some (encryptData t) ∧
        (maskCallRow (some "Agent") c).lead_id = l.take 8 ++ "..." ∧
        (maskCallRow (some "Agent") c).recording_url =
          some ("proxy:recording:" ++ c.id)) := by
  intro req env h uid rows hm hab hb hu hact hcalls
  constructor
  · simp only [handle, if_neg hm, hab, hb, hu]
    simp [dispatchAction, hact, callsAction, hcalls]
  · intro c t l rurl ht htne hl hlne hr hrne
    refine ⟨?_, ?_, ?_⟩
    · simp [maskCallRow, encryptOpt, ht, htne]
    · simp [maskCallRow, maskUuid, hl, hlne]
    · simp [maskCallRow, proxyRecordingUrl, hr, hrne]

/-- Witness for the amended C8: the spec's end-to-end row. -/
theorem C8_amended_witness :
    (maskCallRow (some "Agent") callRowFull).transcript = some (encryptData "hello") ∧
    (maskCallRow (some "Agent") callRowFull).lead_id = "a1b2c3d4e5f6".take 8 ++ "..." ∧
    (maskCallRow (some "Agent") callRowFull).recording_url =
      some ("proxy:recording:" ++ callRowFull.id) :=
  (C8_amended_calls_masking { baseReq with action := some "calls" }
      { baseEnv with calls := Except.ok [callRowFull] } "Bearer tok" "U1" [callRowFull]
      (by decide) rfl (by decide) rfl rfl rfl).2 callRowFull "hello" "a1b2c3d4e5f6"
      "https://storage.example/r.mp3" rfl (by decide) rfl (by decide) rfl (by decide)

/-- Claim C10 fails as stated for `demo_calls`: with an `engineer_id`
parameter supplied, an engineer caller gets a filtered row set while an
admin caller gets the full one — the row set does depend on the
caller's role. -/
theorem C10_counterexample_role_restricts :
    (handle { baseReq with action := some "demo_calls", engineer_id := some "E2" }
        { baseEnv with user_roles := [("U1", "engineer")],
                       demo_calls := Except.ok [demoRowE1, demoRowE2] }).1 =
      { status := 200, body := Body.demoCallList [maskDemoCall [] [] demoRowE2] } ∧
    (handle { baseReq with action := some "demo_calls", engineer_id := some "E2" }
        { baseEnv with user_roles := [("U1", "admin")],
                       demo_calls := Except.ok [demoRowE1, demoRowE2] }).1 =
      { status := 200,
        body := Body.demoCallList [maskDemoCall [] [] demoRowE1,
          maskDemoCall [] [] demoRowE2] } ∧
    ([maskDemoCall [] [] demoRowE2] : List MaskedDemoCall) ≠
      [maskDemoCall [] [] demoRowE1, maskDemoCall [] [] demoRowE2] :=
  ⟨by decide, by decide, by decide⟩

/-- A successful demo-calls fetch yields a 200 with the scoped rows
mapped through the masking transform, for some pair of join lists. -/
theorem demoCallsAction_ok (role ep : Option String) (env : Env)
    (rows : List DemoCall) (h : env.demo_calls = Except.ok rows) :
    ∃ tj aj, (demoCallsAction role ep env).1 =
      { status := 200,
        body := Body.demoCallList ((demoScope role ep rows).map
          (maskDemoCall tj aj)) } := by
  unfold demoCallsAction
  rw [h]
  exact ⟨_, _, rfl⟩

/-- Claim C10 (amended): for any authenticated principal of any
resolved role (a missing role record included), `calls`, `demo_calls`
and `tasks` never answer 403 — only 200 or a 500 fetch failure; `calls`
and `tasks` return the full parameter-filtered masked row set
independently of the role, and `demo_calls` returns the full masked row
set except that an engineer caller supplying a truthy `engineer_id`
parameter gets the rows filtered by that parameter. -/
theorem C10_amended_open_actions :
    ∀ (req : Request) (env : Env) (h uid : String),
      req.method ≠ "OPTIONS" →
      req.authHeader = some h → strStartsWith h "Bearer " = true →
      env.authUser = some uid →
      (req.action = some "calls" ∨ req.action = some "demo_calls" ∨
        req.action = some "tasks") →
      ((handle req env).1.status = 200 ∨ (handle req env).1.status = 500) ∧
      (∀ rows, req.action = some "calls" → env.calls = Except.ok rows →
        (handle req env).1 =
          { status := 200,
            body := Body.callList ((applyCallFilters req.start_date req.client_id
              req.status rows).map (maskCallRow (some "Agent"))) }) ∧
      (∀ rows, req.action = some "tasks" → env.tasks = Except.ok rows →
        (handle req env).1 =
          { status := 200,
            body := Body.taskList ((applyTaskFilters req.assigned_to
              req.status rows).map maskTask) }) ∧
      (∀ rows, req.action = some "demo_calls" → env.demo_calls = Except.ok rows →
        ∃ tj aj, (handle req env).1 =
          { status := 200,
            body := Body.demoCallList ((demoScope (roleOf env.user_roles uid)
              req.engineer_id rows).map (maskDemoCall tj aj)) }) := by
  intro req env h uid hm hab hb hu hact
  have hred : (handle req env).1 =
      (dispatchAction req env (roleOf env.user_roles uid)).1 := by
    simp [handle, if_neg hm, hab, hb, hu]
  refine ⟨?_, ?_, ?_, ?_⟩
  · rw [hred]
    rcases hact with hA | hA | hA
    · cases hc : env.calls with
      | error msg => right; simp [dispatchAction, hA, callsAction, hc]
      | ok rows => left; simp [dispatchAction, hA, callsAction, hc]
    · cases hc : env.demo_calls with
      | error msg => right; simp [dispatchAction, hA, demoCallsAction, hc]
      | ok rows => left; simp [dispatchAction, hA, demoCallsAction, hc]
    · cases hc : env.tasks with
      | error msg => right; simp [dispatchAction, hA, tasksAction, hc]
      | ok rows => left; simp [dispatchAction, hA, tasksAction, hc]
  · intro rows hA hrows
    rw [hred]
    simp [dispatchAction, hA, callsAction, hrows]
  · intro rows hA hrows
    rw [hred]
    simp [dispatchAction, hA, tasksAction, hrows]
  · intro rows hA hrows
    rw [hred]
    simp only [dispatchAction, hA]
    simp
    exact demoCallsAction_ok _ _ _ _ hrows

/-- Witness for the amended C10: a `calls` request with no role record
at all still returns 200 with the masked row. -/
theorem C10_amended_witness :
    (handle { baseReq with action := some "calls" }
        { baseEnv with calls := Except.ok [callRowFull] }).1 =
      { status := 200,
        body := Body.callList ((applyCallFilters none none none [callRowFull]).map
          (maskCallRow (some "Agent"))) } :=
  (C10_amended_open_actions { baseReq with action := some "calls" }
    { baseEnv with calls := Except.ok [callRowFull] } "Bearer tok" "U1"
    (by decide) rfl (by decide) rfl (Or.inl rfl)).2.1 [callRowFull] rfl rfl

end SecureDataProxy
